import Mathlib

/-!
Verification of the static development HTTP server in
`src/frontend/server.py` (the only source file of the repository).

The file embeds the repository code shallowly:

* `CORSHTTPRequestHandler.end_headers`, `do_OPTIONS` and `log_message`
  are translated directly from the source.
* The substrate the handler inherits from (`SimpleHTTPRequestHandler`,
  `BaseHTTPRequestHandler`, `TCPServer`, the Python runtime) is not part
  of the repository; where its behaviour decides a claim, it is modelled
  from the specification and the corresponding definitions carry a
  `Modelled from the spec:` doc comment.
* `main`'s argument handling, working-directory switch and interrupt
  handling are translated from the source.
-/

namespace Memoria

/-- A header is a (name, value) pair, as sent by `send_header`. -/
def Header := String × String

instance : DecidableEq Header := instDecidableEqProd

/-- The three CORS headers appended by
`CORSHTTPRequestHandler.end_headers` (src/frontend/server.py, lines
23-28), in the order of the three `send_header` calls. -/
def corsHeaders : List Header :=
  [("Access-Control-Allow-Origin", "*"),
   ("Access-Control-Allow-Methods", "GET, POST, OPTIONS"),
   ("Access-Control-Allow-Headers", "Content-Type")]

/-- `CORSHTTPRequestHandler.end_headers`: appends the three CORS headers
to whatever headers were already buffered, then terminates the header
block (`super().end_headers()`). -/
def end_headers (sent : List Header) : List Header :=
  sent ++ corsHeaders

/-- An HTTP response as assembled by the handler: status code, the
headers it added, and the body bytes. -/
structure Response where
  status : Nat
  headers : List Header
  body : List Nat
deriving DecidableEq

/-- All values carried by headers of the given name, in order. -/
def headerValues (hs : List Header) (name : String) : List String :=
  (hs.filter (fun h => h.1 = name)).map (fun h => h.2)

/-- `CORSHTTPRequestHandler.do_OPTIONS` (src/frontend/server.py, lines
30-33): `send_response(200)` followed by `end_headers()`, no body. -/
def do_OPTIONS (_path : String) : Response :=
  { status := 200, headers := end_headers [], body := [] }

/-- Modelled from the spec: `SimpleHTTPRequestHandler.do_GET` is library
code, not part of this repository.  §4.1: "resolve request path relative
to rootDir; if the resolved file exists and is within rootDir, return
its bytes with an inferred content type and HTTP 200; otherwise return
HTTP 404."  The filesystem is `fs` (resolved path to file bytes),
content-type inference is `ctype`, and the substrate's error page is
`errPage`.  Both success and error responses terminate their headers
through the overridden `end_headers`. -/
def do_GET (fs : String → Option (List Nat)) (ctype : String → String)
    (errPage : Nat → List Nat) (path : String) : Response :=
  match fs path with
  | some bytes =>
      { status := 200,
        headers := end_headers [("Content-type", ctype path)],
        body := bytes }
  | none =>
      { status := 404,
        headers := end_headers [("Content-type", "text/html;charset=utf-8")],
        body := errPage 404 }

/-- Modelled from the spec: `SimpleHTTPRequestHandler.do_HEAD` is
library code, not part of this repository.  Same resolution as GET
(§6 lists HEAD "via underlying static handler") but no body bytes. -/
def do_HEAD (fs : String → Option (List Nat)) (ctype : String → String)
    (errPage : Nat → List Nat) (path : String) : Response :=
  match fs path with
  | some _ =>
      { status := 200,
        headers := end_headers [("Content-type", ctype path)],
        body := [] }
  | none =>
      { status := 404,
        headers := end_headers [("Content-type", "text/html;charset=utf-8")],
        body := errPage 404 }

/-- Modelled from the spec: the substrate's default response for a
method with no handler — §6: "All other methods fall through to default
method-not-allowed behavior of the underlying static-file handler
substrate."  The error response also terminates its headers through the
overridden `end_headers`. -/
def methodNotAllowed (errPage : Nat → List Nat) (_method : String) : Response :=
  { status := 501,
    headers := end_headers [("Content-type", "text/html;charset=utf-8")],
    body := errPage 501 }

/-- Modelled from the spec: `BaseHTTPRequestHandler`'s method dispatch
(`do_<METHOD>` lookup) is library code, not part of this repository.
The handler class provides `do_OPTIONS` (from the source) and inherits
`do_GET`/`do_HEAD`; every other method falls through to the substrate
default. -/
def handleRequest (fs : String → Option (List Nat)) (ctype : String → String)
    (errPage : Nat → List Nat) (method : String) (path : String) : Response :=
  if method = "OPTIONS" then do_OPTIONS path
  else if method = "GET" then do_GET fs ctype errPage path
  else if method = "HEAD" then do_HEAD fs ctype errPage path
  else methodNotAllowed errPage method

/-! ### Startup: `main`'s port parsing (src/frontend/server.py, line 42)

`port = int(sys.argv[1]) if len(sys.argv) > 1 else 8000`

`pyInt` models Python's `int()` applied to a string: surrounding
whitespace is stripped, an optional single sign is accepted, and the
rest must be a non-empty digit string in which single underscores may
separate digits.  A string `int()` rejects raises `ValueError`. -/

/-- Characters Python's `int()` strips from both ends of its argument. -/
def isPySpace (c : Char) : Bool :=
  c = ' ' || c = '\t' || c = '\n' || c = '\x0d' || c = '\x0b' || c = '\x0c'

/-- Strip `isPySpace` characters from both ends. -/
def stripPySpace (cs : List Char) : List Char :=
  ((cs.dropWhile isPySpace).reverse.dropWhile isPySpace).reverse

/-- Accumulate the value of the digit string after its first digit:
single underscores are allowed between digits, nothing else. -/
def digitsCore : List Char → Nat → Option Nat
  | [], acc => some acc
  | '_' :: c :: rest, acc =>
      if c.isDigit then digitsCore rest (acc * 10 + (c.toNat - 48)) else none
  | c :: rest, acc =>
      if c.isDigit then digitsCore rest (acc * 10 + (c.toNat - 48)) else none

/-- Value of a non-empty digit string (underscore-separated groups
allowed); `none` when the string is not a valid digit run. -/
def digitsVal : List Char → Option Nat
  | [] => none
  | c :: rest => if c.isDigit then digitsCore rest (c.toNat - 48) else none

/-- Python `int()` on a string: `some` the parsed value, `none` when it
raises `ValueError`. -/
def pyInt (s : String) : Option Int :=
  match stripPySpace s.data with
  | '+' :: rest => (digitsVal rest).map (fun n => (n : Int))
  | '-' :: rest => (digitsVal rest).map (fun n => -(n : Int))
  | rest => (digitsVal rest).map (fun n => (n : Int))

/-- What `main` has done by the time the `TCPServer` constructor runs:
either the process died on an uncaught exception before any socket
existed, or execution reached the bind attempt with a definite port. -/
inductive StartupResult where
  | fatalBeforeBind (exitCode : Nat)
  | bindAttempt (port : Int)
deriving DecidableEq

/-- `main`'s startup up to the bind attempt (src/frontend/server.py,
line 42): with more than one `argv` entry the port is
`int(sys.argv[1])` — an unparsable string raises `ValueError`, which is
uncaught, so the interpreter prints a traceback to standard error and
exits with status 1 before any socket is created; otherwise the port is
8000.  No range check occurs anywhere in `main`. -/
def startup (argv : List String) : StartupResult :=
  match argv with
  | _prog :: a :: _ =>
      match pyInt a with
      | some p => .bindAttempt p
      | none => .fatalBeforeBind 1
  | _ => .bindAttempt 8000

/-! ### Shutdown: the `try`/`except KeyboardInterrupt` block
(src/frontend/server.py, lines 56-60) -/

/-- An exception surfacing out of `httpd.serve_forever()`. -/
inductive PyExc where
  | keyboardInterrupt
  | other (name : String)
deriving DecidableEq

/-- Outcome of the serving phase of `main`: lines printed after the
banner, whether the listening socket was closed, and the process exit
status. -/
structure ServeOutcome where
  printed : List String
  socketClosed : Bool
  exitCode : Nat
deriving DecidableEq

/-- The message printed by the `except KeyboardInterrupt` clause. -/
def shutdownMessage : String := "\n🛑 Server stopped by user"

/-- The `try`/`except` around `serve_forever` (src/frontend/server.py,
lines 56-60): `KeyboardInterrupt` (the interrupt signal) is caught, the
shutdown message is printed, `httpd.shutdown()` runs, the `with` block
closes the socket and `main` returns, so the process exits 0.  Any
other exception propagates: the `with` block still closes the socket
but the interpreter exits 1. -/
def serveUntil (exc : PyExc) : ServeOutcome :=
  match exc with
  | .keyboardInterrupt =>
      { printed := [shutdownMessage], socketClosed := true, exitCode := 0 }
  | .other _ =>
      { printed := [], socketClosed := true, exitCode := 1 }

/-! ### The root directory (src/frontend/server.py, line 45)

`os.chdir(os.path.dirname(os.path.abspath(__file__)))` -/

/-- `os.path.abspath` for POSIX paths, without `normpath`'s `.`/`..`
collapsing (none of the claims depends on it): an absolute path is kept,
a relative one is joined to the current working directory. -/
def abspath (cwd p : String) : String :=
  if p.data.head? = some '/' then p else cwd ++ "/" ++ p

/-- Head part of `os.path.dirname`, taking the reversed input with the
basename already dropped: empty when the path had no slash, kept whole
when it is all slashes, otherwise stripped of its trailing slashes. -/
def dirnameCore (rest : List Char) : String :=
  if rest.isEmpty then ""
  else if rest.all (fun c => c = '/') then ⟨rest.reverse⟩
  else ⟨(rest.dropWhile (fun c => c = '/')).reverse⟩

/-- `os.path.dirname` for POSIX paths: everything up to and including
the last slash, with trailing slashes stripped unless the head is all
slashes; the empty string when there is no slash. -/
def dirname (p : String) : String :=
  dirnameCore (p.data.reverse.dropWhile (fun c => !(c = '/')))

/-- The directory `main` switches the working directory to
(src/frontend/server.py, line 45).  It takes the process environment as
an argument only to record that the source consults no environment
variable: the parameter is unused. -/
def chdirTarget (cwd scriptPath : String)
    (_env : List (String × String)) : String :=
  dirname (abspath cwd scriptPath)

/-! ### Logging (src/frontend/server.py, lines 35-37) -/

/-- Python `%`-formatting restricted to the `%s` conversions that the
substrate's log calls use: each `%s` consumes the next argument. -/
def pyFormat : List Char → List String → List Char
  | '%' :: 's' :: rest, a :: args => a.data ++ pyFormat rest args
  | c :: rest, args => c :: pyFormat rest args
  | [], _ => []

/-- `CORSHTTPRequestHandler.log_message` (src/frontend/server.py,
lines 35-37): prints `f"[{self.log_date_time_string()}] {format % args}"`
as one `print` call, i.e. one line.  `ts` stands for the value of
`log_date_time_string()`. -/
def log_message (ts : String) (fmt : String) (args : List String) : List Char :=
  '[' :: ts.data ++ ']' :: ' ' :: pyFormat fmt.data args

/-- Modelled from the spec: the substrate's per-request log call
(`BaseHTTPRequestHandler.log_request`) is library code, not part of this
repository.  §4.1: "After sending a response, write one log line to
standard output containing a timestamp, the client's request line, and
the response status."  The substrate invokes `log_message` once with the
request line, the status code and the body size as `%s` arguments. -/
def requestLogLine (ts requestline code size : String) : List Char :=
  log_message ts "\x22%s\x22 %s %s" [requestline, code, size]

/-- A tiny filesystem used to instantiate the GET theorems on concrete
inputs: it holds one file, `/index.html`, with the bytes of
`"<html>"`. -/
def fsEx : String → Option (List Nat) :=
  fun p => if p = "/index.html" then some [60, 104, 116, 109, 108, 62] else none

/-- Whether a startup outcome is a fatal failure (non-zero exit) that
happened before the bind attempt. -/
def failsFatallyBeforeBind : StartupResult → Bool
  | .fatalBeforeBind e => e ≠ 0
  | .bindAttempt _ => false

/-! ## Theorems -/

/-- All values of a header name in a concatenation, in order. -/
lemma headerValues_append (hs1 hs2 : List Header) (n : String) :
    headerValues (hs1 ++ hs2) n = headerValues hs1 n ++ headerValues hs2 n := by
  simp [headerValues, List.filter_append]

/-- `end_headers` puts each CORS header exactly once with its fixed
value whenever the already-buffered headers use none of the three CORS
names. -/
lemma headerValues_end_headers (base : List Header)
    (h1 : headerValues base "Access-Control-Allow-Origin" = [])
    (h2 : headerValues base "Access-Control-Allow-Methods" = [])
    (h3 : headerValues base "Access-Control-Allow-Headers" = []) :
    headerValues (end_headers base) "Access-Control-Allow-Origin" = ["*"] ∧
    headerValues (end_headers base) "Access-Control-Allow-Methods"
      = ["GET, POST, OPTIONS"] ∧
    headerValues (end_headers base) "Access-Control-Allow-Headers"
      = ["Content-Type"] := by
  refine ⟨?_, ?_, ?_⟩
  · rw [end_headers, headerValues_append, h1]; rfl
  · rw [end_headers, headerValues_append, h2]; rfl
  · rw [end_headers, headerValues_append, h3]; rfl

/-- A lone `Content-type` header carries no value for any other header
name. -/
lemma headerValues_ct_nil (v : String) (n : String) (h : n ≠ "Content-type") :
    headerValues [("Content-type", v)] n = [] := by
  simp [headerValues, List.filter_cons, Ne.symm h]

/-- Claim C1: every HTTP response produced by the server — any method,
any path, any filesystem contents, hence any status — carries the three
CORS headers `Access-Control-Allow-Origin: *`,
`Access-Control-Allow-Methods: GET, POST, OPTIONS` and
`Access-Control-Allow-Headers: Content-Type`, each exactly once with
exactly that value. -/
theorem cors_headers_on_every_response
    (fs : String → Option (List Nat)) (ctype : String → String)
    (errPage : Nat → List Nat) (method path : String) :
    headerValues (handleRequest fs ctype errPage method path).headers
        "Access-Control-Allow-Origin" = ["*"] ∧
    headerValues (handleRequest fs ctype errPage method path).headers
        "Access-Control-Allow-Methods" = ["GET, POST, OPTIONS"] ∧
    headerValues (handleRequest fs ctype errPage method path).headers
        "Access-Control-Allow-Headers" = ["Content-Type"] := by
  unfold handleRequest
  split_ifs
  · exact headerValues_end_headers [] rfl rfl rfl
  · unfold do_GET
    cases fs path
    · exact headerValues_end_headers _
        (headerValues_ct_nil _ _ (by decide))
        (headerValues_ct_nil _ _ (by decide))
        (headerValues_ct_nil _ _ (by decide))
    · exact headerValues_end_headers _
        (headerValues_ct_nil _ _ (by decide))
        (headerValues_ct_nil _ _ (by decide))
        (headerValues_ct_nil _ _ (by decide))
  · unfold do_HEAD
    cases fs path
    · exact headerValues_end_headers _
        (headerValues_ct_nil _ _ (by decide))
        (headerValues_ct_nil _ _ (by decide))
        (headerValues_ct_nil _ _ (by decide))
    · exact headerValues_end_headers _
        (headerValues_ct_nil _ _ (by decide))
        (headerValues_ct_nil _ _ (by decide))
        (headerValues_ct_nil _ _ (by decide))
  · exact headerValues_end_headers _
      (headerValues_ct_nil _ _ (by decide))
      (headerValues_ct_nil _ _ (by decide))
      (headerValues_ct_nil _ _ (by decide))

/-- Claim C2: an OPTIONS request to any path returns status 200 with an
empty body, and the response carries the three CORS headers. -/
theorem options_returns_200_empty
    (fs : String → Option (List Nat)) (ctype : String → String)
    (errPage : Nat → List Nat) (path : String) :
    (handleRequest fs ctype errPage "OPTIONS" path).status = 200 ∧
    (handleRequest fs ctype errPage "OPTIONS" path).body = [] ∧
    headerValues (handleRequest fs ctype errPage "OPTIONS" path).headers
        "Access-Control-Allow-Origin" = ["*"] ∧
    headerValues (handleRequest fs ctype errPage "OPTIONS" path).headers
        "Access-Control-Allow-Methods" = ["GET, POST, OPTIONS"] ∧
    headerValues (handleRequest fs ctype errPage "OPTIONS" path).headers
        "Access-Control-Allow-Headers" = ["Content-Type"] := by
  refine ⟨rfl, rfl, rfl, rfl, rfl⟩

/-- Claim C3: a GET request whose path resolves to an existing file
returns status 200 with the file's exact bytes as the body; a GET
request whose path resolves to no file returns status 404. -/
theorem get_serves_file_or_404
    (fs : String → Option (List Nat)) (ctype : String → String)
    (errPage : Nat → List Nat) (path : String) :
    (∀ bytes, fs path = some bytes →
      (handleRequest fs ctype errPage "GET" path).status = 200 ∧
      (handleRequest fs ctype errPage "GET" path).body = bytes) ∧
    (fs path = none →
      (handleRequest fs ctype errPage "GET" path).status = 404) := by
  constructor
  · intro bytes h
    simp [handleRequest, do_GET, h]
  · intro h
    simp [handleRequest, do_GET, h]

/-- Witness for C3: on a one-file filesystem, `GET /index.html` yields
200 with the file's bytes and `GET /missing.file` yields 404. -/
theorem get_serves_file_or_404_witness :
    (handleRequest fsEx (fun _ => "text/html") (fun _ => []) "GET"
        "/index.html").status = 200 ∧
    (handleRequest fsEx (fun _ => "text/html") (fun _ => []) "GET"
        "/index.html").body = [60, 104, 116, 109, 108, 62] ∧
    (handleRequest fsEx (fun _ => "text/html") (fun _ => []) "GET"
        "/missing.file").status = 404 :=
  ⟨((get_serves_file_or_404 fsEx (fun _ => "text/html") (fun _ => [])
      "/index.html").1 [60, 104, 116, 109, 108, 62] rfl).1,
   ((get_serves_file_or_404 fsEx (fun _ => "text/html") (fun _ => [])
      "/index.html").1 [60, 104, 116, 109, 108, 62] rfl).2,
   (get_serves_file_or_404 fsEx (fun _ => "text/html") (fun _ => [])
      "/missing.file").2 rfl⟩

/-- Counterexample to claim C4: the port argument `"0"` parses as the
integer 0, which is outside the valid range 1–65535, yet startup does
not fail before binding — it reaches the bind attempt with port 0. -/
theorem port_zero_not_rejected :
    pyInt "0" = some 0 ∧
    ¬ ((1 : Int) ≤ 0 ∧ (0 : Int) ≤ 65535) ∧
    startup ["server.py", "0"] = StartupResult.bindAttempt 0 ∧
    failsFatallyBeforeBind (startup ["server.py", "0"]) = false := by
  refine ⟨by decide, by decide, rfl, rfl⟩

/-- Claim C4 as amended: a non-integer port argument makes startup fail
fatally before binding, with exit status 1 (the uncaught `ValueError`
traceback goes to standard error); an argument that parses as an
integer — in range or not — is never rejected before binding: startup
always proceeds to the bind attempt with the parsed value. -/
theorem invalid_port_behavior (prog a : String) (rest : List String) :
    (pyInt a = none →
      startup (prog :: a :: rest) = StartupResult.fatalBeforeBind 1 ∧
      failsFatallyBeforeBind (startup (prog :: a :: rest)) = true) ∧
    (∀ p : Int, pyInt a = some p →
      startup (prog :: a :: rest) = StartupResult.bindAttempt p) := by
  constructor
  · intro h
    constructor
    · simp [startup, h]
    · simp [startup, h, failsFatallyBeforeBind]
  · intro p h
    simp [startup, h]

/-- Witness for the amended C4: `"abc"` fails before binding with exit
status 1, while the out-of-range `"70000"` reaches the bind attempt. -/
theorem invalid_port_behavior_witness :
    startup ["server.py", "abc"] = StartupResult.fatalBeforeBind 1 ∧
    startup ["server.py", "70000"] = StartupResult.bindAttempt 70000 :=
  ⟨((invalid_port_behavior "server.py" "abc" []).1 (by decide)).1,
   (invalid_port_behavior "server.py" "70000" []).2 70000 (by decide)⟩

/-- Claim C5: any method other than GET, HEAD and OPTIONS gets the
substrate's default method-not-allowed response. -/
theorem other_methods_fall_through
    (fs : String → Option (List Nat)) (ctype : String → String)
    (errPage : Nat → List Nat) (method path : String)
    (hg : method ≠ "GET") (hh : method ≠ "HEAD") (ho : method ≠ "OPTIONS") :
    handleRequest fs ctype errPage method path
      = methodNotAllowed errPage method := by
  simp [handleRequest, hg, hh, ho]

/-- Witness for C5: a POST request gets the substrate's default
method-not-allowed response. -/
theorem other_methods_fall_through_witness :
    handleRequest (fun _ => none) (fun _ => "") (fun _ => []) "POST" "/x"
      = methodNotAllowed (fun _ => []) "POST" :=
  other_methods_fall_through (fun _ => none) (fun _ => "") (fun _ => [])
    "POST" "/x" (by decide) (by decide) (by decide)

/-- Claim C6: when the interrupt signal arrives while serving, the
process exits with status 0, the listening socket is closed, and the
shutdown message is among the printed lines. -/
theorem interrupt_clean_shutdown :
    (serveUntil PyExc.keyboardInterrupt).exitCode = 0 ∧
    (serveUntil PyExc.keyboardInterrupt).socketClosed = true ∧
    shutdownMessage ∈ (serveUntil PyExc.keyboardInterrupt).printed := by
  refine ⟨rfl, rfl, List.mem_singleton.mpr rfl⟩

/-- Claim C7: with no port argument on the command line, startup reaches
the bind attempt with port 8000. -/
theorem default_port_8000 (prog : String) :
    startup [prog] = StartupResult.bindAttempt 8000 := rfl

/-- `dropWhile` skips a whole prefix all of whose elements satisfy the
predicate. -/
lemma dropWhile_append_of_forall {α} (p : α → Bool) (l1 l2 : List α)
    (h : ∀ a ∈ l1, p a = true) :
    (l1 ++ l2).dropWhile p = l2.dropWhile p := by
  induction l1 with
  | nil => rfl
  | cons a l ih =>
      simp only [List.cons_append, List.dropWhile_cons,
        h a (List.mem_cons_self a l), if_pos]
      exact ih (fun x hx => h x (List.mem_cons_of_mem a hx))

/-- `dirname` of `dir ++ "/" ++ name` is `dir` whenever `dir` is
non-empty and does not end in a slash and `name` contains no slash. -/
lemma dirname_append (dir name : String)
    (hd : dir.data ≠ [])
    (hlast : dir.data.reverse.head? ≠ some '/')
    (hslash : ∀ c ∈ name.data, c ≠ '/') :
    dirname (dir ++ "/" ++ name) = dir := by
  obtain ⟨c, l2, hrev⟩ : ∃ c l2, dir.data.reverse = c :: l2 := by
    cases hr : dir.data.reverse with
    | nil => exact absurd (by simpa using congrArg List.reverse hr) hd
    | cons c l2 => exact ⟨c, l2, rfl⟩
  have hc : c ≠ '/' := by
    intro h; exact hlast (by rw [hrev, h]; rfl)
  have hdata : (dir ++ "/" ++ name).data = dir.data ++ '/' :: name.data := by
    simp [String.data_append]
  unfold dirname
  rw [hdata]
  have h1 : (dir.data ++ '/' :: name.data).reverse
      = name.data.reverse ++ '/' :: dir.data.reverse := by
    simp
  rw [h1]
  have h2 : (name.data.reverse ++ '/' :: dir.data.reverse).dropWhile
      (fun c => !(c = '/')) = '/' :: dir.data.reverse := by
    rw [dropWhile_append_of_forall]
    · rw [List.dropWhile_cons]
      simp
    · intro a ha
      have := hslash a (by simpa using ha)
      simpa using this
  rw [h2, hrev]
  unfold dirnameCore
  have h3 : ¬ (('/' :: c :: l2).all (fun x => decide (x = '/')) = true) := by
    simp [List.all_cons, hc]
  rw [if_neg (by simp), if_neg h3]
  have h4 : ('/' :: c :: l2).dropWhile (fun x => decide (x = '/')) = c :: l2 := by
    rw [List.dropWhile_cons]
    simp [List.dropWhile_cons, hc]
  rw [h4, ← hrev]
  simp

/-- Claim C8: the working directory `main` switches to is the directory
containing the script and nothing else — it equals
`dirname (abspath cwd script)`, it is unchanged under any change of the
process environment, and for a script at `dir ++ "/" ++ name` (absolute
`dir` not ending in a slash, slash-free `name`) it is exactly `dir`. -/
theorem root_is_script_directory
    (cwd script dir name : String) (env env2 : List (String × String))
    (habs : dir.data.head? = some '/')
    (hlast : dir.data.reverse.head? ≠ some '/')
    (hslash : ∀ c ∈ name.data, c ≠ '/') :
    chdirTarget cwd script env = dirname (abspath cwd script) ∧
    chdirTarget cwd script env = chdirTarget cwd script env2 ∧
    chdirTarget cwd (dir ++ "/" ++ name) env = dir := by
  have hd : dir.data ≠ [] := by
    intro h; rw [h] at habs; exact Option.noConfusion habs
  refine ⟨rfl, rfl, ?_⟩
  have hjoin : (dir ++ "/" ++ name).data.head? = some '/' := by
    obtain ⟨c, l, hc⟩ : ∃ c l, dir.data = c :: l := by
      cases hdd : dir.data with
      | nil => exact absurd hdd hd
      | cons c l => exact ⟨c, l, rfl⟩
    have : (dir ++ "/" ++ name).data = c :: (l ++ '/' :: name.data) := by
      simp [String.data_append, hc]
    rw [this]
    rw [hc] at habs
    simpa using habs
  unfold chdirTarget abspath
  rw [if_pos hjoin]
  exact dirname_append dir name hd hlast hslash

/-- Witness for C8 at the repository's own layout: the chdir target of
`/root/workspace/src/frontend/server.py` is
`/root/workspace/src/frontend`, independent of the environment. -/
theorem root_is_script_directory_witness :
    chdirTarget "/" "x" [] = dirname (abspath "/" "x") ∧
    chdirTarget "/" "x" [] = chdirTarget "/" "x" [("PORT", "9")] ∧
    chdirTarget "/" ("/root/workspace/src/frontend" ++ "/" ++ "server.py") []
      = "/root/workspace/src/frontend" :=
  root_is_script_directory "/" "x" "/root/workspace/src/frontend" "server.py"
    [] [("PORT", "9")] (by decide) (by decide) (by decide)

/-- Claim C9: the per-request log line contains the timestamp, the
request line and the status code, and — as long as none of the logged
fields embeds a newline — it is a single line (no newline character). -/
theorem request_log_line_ok (ts rl code size : String)
    (h1 : '\n' ∉ ts.data) (h2 : '\n' ∉ rl.data)
    (h3 : '\n' ∉ code.data) (h4 : '\n' ∉ size.data) :
    (∃ u v, requestLogLine ts rl code size = u ++ ts.data ++ v) ∧
    (∃ u v, requestLogLine ts rl code size = u ++ rl.data ++ v) ∧
    (∃ u v, requestLogLine ts rl code size = u ++ code.data ++ v) ∧
    '\n' ∉ requestLogLine ts rl code size := by
  refine ⟨?_, ?_, ?_, ?_⟩
  · exact ⟨['['], ']' :: ' ' :: '\x22' :: rl.data
      ++ '\x22' :: ' ' :: code.data ++ ' ' :: size.data,
      by simp [requestLogLine, log_message, pyFormat]⟩
  · exact ⟨'[' :: ts.data ++ [']', ' ', '\x22'],
      '\x22' :: ' ' :: code.data ++ ' ' :: size.data,
      by simp [requestLogLine, log_message, pyFormat]⟩
  · exact ⟨'[' :: ts.data ++ ']' :: ' ' :: '\x22' :: rl.data ++ ['\x22', ' '],
      ' ' :: size.data,
      by simp [requestLogLine, log_message, pyFormat]⟩
  · simp [requestLogLine, log_message, pyFormat, h1, h2, h3, h4]

/-- Witness for C9 on a concrete timestamp, request line and status. -/
theorem request_log_line_ok_witness :
    (∃ u v, requestLogLine "12/Oct/2026 10:00:00" "GET / HTTP/1.1" "200" "-"
        = u ++ ("12/Oct/2026 10:00:00" : String).data ++ v) ∧
    (∃ u v, requestLogLine "12/Oct/2026 10:00:00" "GET / HTTP/1.1" "200" "-"
        = u ++ ("GET / HTTP/1.1" : String).data ++ v) ∧
    (∃ u v, requestLogLine "12/Oct/2026 10:00:00" "GET / HTTP/1.1" "200" "-"
        = u ++ ("200" : String).data ++ v) ∧
    '\n' ∉ requestLogLine "12/Oct/2026 10:00:00" "GET / HTTP/1.1" "200" "-" :=
  request_log_line_ok "12/Oct/2026 10:00:00" "GET / HTTP/1.1" "200" "-"
    (by decide) (by decide) (by decide) (by decide)

/-- Claim C10: only `argv[1]` determines startup — the program name and
any arguments after the first positional one have no effect. -/
theorem extra_args_ignored (prog prog2 a : String) (rest rest2 : List String) :
    startup (prog :: a :: rest) = startup (prog2 :: a :: rest2) := rfl

end Memoria
